import Mathlib

/-!
Shallow embedding of `libv2ray_support.go` (package libv2ray):
the DNS resolution / IP-rotation state machine (`resolved`, `NextIP`,
`currentIP`), address resolution (`lookupAddr`), the preparation loop
(`PrepareDomain`), the dial orchestration (`Dial`) and the protected
raw-socket connection routine (`fdConn`).

Modelling conventions:
- A Go `net.IP` is abstracted as a record carrying the one observation
  the code makes of it, `To4() != nil` (field `isV4`), plus a tag so
  distinct addresses are distinguishable.  A Go `nil` IP is `Option.none`.
- Go `time.Time` / `time.Duration` are `Int` nanoseconds
  (`time.Second*5` is `throttleNs = 5 * secondNs`).
- The `uint8` field `ipIdx` is a `Nat` with arithmetic taken `% 256`
  exactly where the 8-bit machine arithmetic occurs in the source.
- Syscalls, the system resolver and host capabilities are oracle
  function parameters; Go `error` values are `String` messages.
- Mutex-guarded mutation becomes explicit state passing; channel waits
  and deferred calls become explicit events in returned event traces.
-/

/-- Abstraction of Go `net.IP`: `isV4` is the observation `To4() != nil`;
`tag` distinguishes addresses. -/
structure IP where
  isV4 : Bool
  tag : Nat
deriving DecidableEq, Repr

instance : Inhabited IP := ⟨⟨false, 0⟩⟩

/-- An IPv4 address (To4() returns non-nil) with identifying tag. -/
def ip4 (n : Nat) : IP := ⟨true, n⟩

/-- An IPv6 address (To4() returns nil) with identifying tag. -/
def ip6 (n : Nat) : IP := ⟨false, n⟩

/-- Go struct `resolved` (libv2ray_support.go lines 24-31).  The
`sync.Mutex` field is dropped (mutation is explicit state passing);
`ipIdx uint8` is a `Nat` whose updates take `% 256` where the source's
8-bit arithmetic wraps; `lastSwitched time.Time` is `Int` nanoseconds. -/
structure Resolved where
  domain : String
  IPs : List IP
  Port : Nat
  ipIdx : Nat
  lastSwitched : Int
deriving DecidableEq, Repr

/-- One second in nanoseconds (Go `time.Second`). -/
def secondNs : Int := 1000000000

/-- Go `time.Second * 5`, the rotation throttle window. -/
def throttleNs : Int := 5 * secondNs

/-- Go method `(*resolved).NextIP` (lines 37-61), at time `now`.
`if len(r.IPs) > 1` guards everything; inside, `now.Sub(r.lastSwitched) <
time.Second*5` throttles; otherwise `r.lastSwitched = now; r.ipIdx++`
(8-bit increment, hence `% 256`), then the wraparound check
`r.ipIdx >= uint8(len(r.IPs))` compares against the length truncated to
8 bits and resets the cursor to 0 when it holds. -/
def NextIP (r : Resolved) (now : Int) : Resolved :=
  if 1 < r.IPs.length then
    if now - r.lastSwitched < throttleNs then
      r
    else
      if r.IPs.length % 256 ≤ (r.ipIdx + 1) % 256 then
        { r with lastSwitched := now, ipIdx := 0 }
      else
        { r with lastSwitched := now, ipIdx := (r.ipIdx + 1) % 256 }
  else
    r

/-- Go method `(*resolved).currentIP` (lines 63-71): returns
`r.IPs[r.ipIdx]` when the list is non-empty, `nil` (here `none`)
otherwise.  `none` in the non-empty case would correspond to an
out-of-range panic of the Go indexing; the invariants below show the
lookup is always in range. -/
def currentIP (r : Resolved) : Option IP :=
  if 0 < r.IPs.length then r.IPs[r.ipIdx]? else none

/-- A sequence of `NextIP` calls at the given times, in order. -/
def applyRotations (r : Resolved) (ts : List Int) : Resolved :=
  ts.foldl NextIP r

/-- The reorder step of `lookupAddr` (lines 141-149): when the caller
does not prefer IPv6, the list has more than one entry, the first entry
has `To4() == nil` and the last entry has `To4() != nil`, the in-place
swap loop reverses the whole list; otherwise the list is unchanged. -/
def goReorder (preferIPv6 : Bool) (IPs : List IP) : List IP :=
  if preferIPv6 = false ∧ 1 < IPs.length ∧ IPs.head?.map IP.isV4 = some false ∧
      IPs.getLast?.map IP.isV4 = some true then
    IPs.reverse
  else
    IPs

/-- Go method `(*ProtectedDialer).lookupAddr` (lines 108-158).
`split`, `lookupPort` and `lookupIPAddr` are oracles for
`net.SplitHostPort`, `resolver.LookupPort` and `resolver.LookupIPAddr`;
each error is propagated; an empty lookup result yields the
"Failed to resolve" error; the surviving list is reordered by
`goReorder` and stored in a fresh `resolved` whose `ipIdx` and
`lastSwitched` are the Go zero values. -/
def lookupAddr (preferIPv6 : Bool)
    (split : String → Except String (String × String))
    (lookupPort : String → Except String Nat)
    (lookupIPAddr : String → Except String (List IP))
    (addr : String) : Except String Resolved :=
  match split addr with
  | .error e => .error e
  | .ok (host, portTok) =>
    match lookupPort portTok with
    | .error e => .error e
    | .ok portnum =>
      match lookupIPAddr host with
      | .error e => .error e
      | .ok addrs =>
        if addrs.length = 0 then
          .error ("domain " ++ addr ++ " Failed to resolve")
        else
          .ok { domain := host, IPs := goReorder preferIPv6 addrs,
                Port := portnum, ipIdx := 0, lastSwitched := 0 }

/-- Go struct `ProtectedDialer` (lines 84-93).  `resolveChan`,
`resolver` and the embedded `protectSet` are modelled as oracles at the
call sites; the remaining mutable fields are kept. -/
structure ProtectedDialer where
  currentServer : String
  preferIPv6 : Bool
  vServer : Option Resolved
deriving DecidableEq, Repr

/-- Events of a `PrepareDomain` run: a call to `lookupAddr`
(`attempt`), the store `d.vServer = resolved` (`store`), and the
deferred `close(d.resolveChan)` (`signal`). -/
inductive PrepEv
  | attempt
  | store
  | signal
deriving DecidableEq, Repr

/-- The retry loop body of `PrepareDomain` (lines 167-191).  `lookup n`
is the outcome of the n-th `lookupAddr` call; `cancel n` tells whether
`closeCh` fires during the 2-second wait after the n-th failed attempt.
Fuel is `maxRetry`: the loop exits when it reaches 0.  Returns the
endpoint stored (if any) and the event trace of the loop. -/
def prepLoop (lookup : Nat → Except String Resolved) (cancel : Nat → Bool) :
    Nat → Nat → Option Resolved × List PrepEv
  | _, 0 => (none, [])
  | k, m + 1 =>
    match lookup k with
    | .ok rs => (some rs, [.attempt, .store])
    | .error _ =>
      if cancel k then
        (none, [.attempt])
      else
        let p := prepLoop lookup cancel (k + 1) m
        (p.1, .attempt :: p.2)

/-- Go method `(*ProtectedDialer).PrepareDomain` (lines 161-192):
records the domain and the IPv6 preference, runs the retry loop with
`maxRetry = 10`, stores the endpoint on success, and — via
`defer close(d.resolveChan)` — fires the readiness signal as the final
step of every exit path. -/
def PrepareDomain (d : ProtectedDialer) (domainName : String)
    (lookup : Nat → Except String Resolved) (cancel : Nat → Bool)
    (prefIPv6 : Bool) : ProtectedDialer × List PrepEv :=
  let d0 : ProtectedDialer :=
    { d with currentServer := domainName, preferIPv6 := prefIPv6 }
  let p := prepLoop lookup cancel 0 10
  let d1 : ProtectedDialer :=
    match p.1 with
    | some rs => { d0 with vServer := some rs }
    | none => d0
  (d1, p.2 ++ [PrepEv.signal])

/-- Transport kinds distinguished by `getFd` (lines 194-204). -/
inductive Network
  | tcp
  | udp
  | other
deriving DecidableEq, Repr

/-- A `v2net.Destination`: transport kind plus `NetAddr()` string. -/
structure Destination where
  network : Network
  addr : String
deriving DecidableEq, Repr

/-- Abstraction of a Go `net.Conn` produced by `net.FileConn`. -/
structure Conn where
  tag : Nat
deriving DecidableEq, Repr

/-- Go method `(*ProtectedDialer).getFd` (lines 194-204): allocates a
dual-stack socket for TCP or UDP via the `socket` oracle
(`unix.Socket`), and fails with "unknow network" otherwise. -/
def getFd (socket : Network → Except String Nat) (n : Network) :
    Except String Nat :=
  match n with
  | .tcp => socket .tcp
  | .udp => socket .udp
  | .other => .error "unknow network"

/-- Events of an `fdConn` call: the `d.Protect(fd)` capability call,
the `unix.Connect` syscall, the deferred `file.Close()`, and the
deferred `unix.Close(fd)`. -/
inductive FdEv
  | protectCall (fd : Nat)
  | connectCall (fd : Nat) (ip : Option IP) (port : Nat)
  | fileCloseCall
  | closeCall (fd : Nat)
deriving DecidableEq, Repr

/-- Go method `(*ProtectedDialer).fdConn` (lines 265-300).
`protect` is the injected capability, `connectErr fd ip port` the
outcome of `unix.Connect` (`none` = success), `fileValid` whether
`os.NewFile` returns non-nil, `fileConnRes` the outcome of
`net.FileConn`.  `defer unix.Close(fd)` runs last on every path;
`defer file.Close()` runs (before it) on every path past the file
wrap.  Returns the result and the ordered event trace. -/
def fdConn (protect : Nat → Bool)
    (connectErr : Nat → Option IP → Nat → Option String)
    (fileValid : Bool) (fileConnRes : Except String Conn)
    (ip : Option IP) (port : Nat) (fd : Nat) :
    Except String Conn × List FdEv :=
  if protect fd = false then
    (.error "fail to protect", [.protectCall fd, .closeCall fd])
  else
    match connectErr fd ip port with
    | some e =>
      (.error e, [.protectCall fd, .connectCall fd ip port, .closeCall fd])
    | none =>
      if fileValid = false then
        (.error "fdConn fd invalid",
          [.protectCall fd, .connectCall fd ip port, .closeCall fd])
      else
        match fileConnRes with
        | .error e =>
          (.error e, [.protectCall fd, .connectCall fd ip port,
            .fileCloseCall, .closeCall fd])
        | .ok c =>
          (.ok c, [.protectCall fd, .connectCall fd ip port,
            .fileCloseCall, .closeCall fd])

/-- Events of a `Dial` call: blocking on `<-d.resolveChan`
(`waitResolve`), one `fdConn` attempt, and one `NextIP` call. -/
inductive DialEv
  | waitResolve
  | fdConnAttempt
  | nextIPCall
deriving DecidableEq, Repr

/-- Go method `(*ProtectedDialer).Dial` (lines 212-263).  Branch A
(destination address equals the cached server): if `d.vServer` is nil,
block on the readiness channel — `afterWait` is the value of
`d.vServer` observed once the signal fires — and fail if it is still
nil; otherwise allocate the socket, read `currentIP`, run `fdConn`,
and on failure call `NextIP` (at time `now`) before propagating the
error.  Branch B (any other destination): fresh `lookupAddr` via the
`lookup` oracle, then `fdConn` to the first resolved IP, with no
rotation state.  Returns result, updated dialer state, and trace. -/
def goDial (d : ProtectedDialer) (dest : Destination)
    (afterWait : Option Resolved)
    (socket : Network → Except String Nat)
    (protect : Nat → Bool)
    (connectErr : Nat → Option IP → Nat → Option String)
    (fileValid : Bool) (fileConnRes : Except String Conn)
    (lookup : String → Except String Resolved)
    (now : Int) : Except String Conn × ProtectedDialer × List DialEv :=
  if dest.addr = d.currentServer then
    let sw : Option Resolved × List DialEv :=
      match d.vServer with
      | some r => (some r, [])
      | none => (afterWait, [.waitResolve])
    match sw with
    | (none, tr0) =>
      (.error ("fail to prepare domain " ++ d.currentServer), d, tr0)
    | (some r, tr0) =>
      match getFd socket dest.network with
      | .error e => (.error e, { d with vServer := some r }, tr0)
      | .ok fd =>
        match fdConn protect connectErr fileValid fileConnRes
            (currentIP r) r.Port fd with
        | (.error e, _) =>
          (.error e, { d with vServer := some (NextIP r now) },
            tr0 ++ [.fdConnAttempt, .nextIPCall])
        | (.ok c, _) =>
          (.ok c, { d with vServer := some r }, tr0 ++ [.fdConnAttempt])
  else
    match lookup dest.addr with
    | .error e => (.error e, d, [])
    | .ok rs =>
      match getFd socket dest.network with
      | .error e => (.error e, d, [])
      | .ok fd =>
        ((fdConn protect connectErr fileValid fileConnRes
          rs.IPs.head? rs.Port fd).1, d, [.fdConnAttempt])

lemma NextIP_IPs (r : Resolved) (now : Int) : (NextIP r now).IPs = r.IPs := by
  unfold NextIP
  split
  · split
    · rfl
    · split <;> rfl
  · rfl

lemma NextIP_idx_lt (r : Resolved) (now : Int) (h : r.ipIdx < r.IPs.length) :
    (NextIP r now).ipIdx < (NextIP r now).IPs.length := by
  unfold NextIP
  split
  · split
    · exact h
    · split
      · simp only []
        omega
      · simp only []
        have := Nat.mod_le r.IPs.length 256
        omega
  · exact h

lemma applyRotations_inv (r : Resolved) (ts : List Int)
    (h : r.ipIdx < r.IPs.length) :
    (applyRotations r ts).ipIdx < (applyRotations r ts).IPs.length ∧
    (applyRotations r ts).IPs = r.IPs := by
  induction ts generalizing r with
  | nil => exact ⟨h, rfl⟩
  | cons t ts ih =>
    have h1 := NextIP_idx_lt r t h
    have h2 := NextIP_IPs r t
    have h1a : (NextIP r t).ipIdx < (NextIP r t).IPs.length := h1
    obtain ⟨a, b⟩ := ih (NextIP r t) h1a
    exact ⟨a, by simpa [applyRotations, h2] using b⟩

/-- C2: for every endpoint whose cursor is in range (as it is at
creation, where `ipIdx = 0` and the list is non-empty), any sequence of
`NextIP` calls keeps the cursor inside `[0, len(IPs))`, leaves the IP
list itself untouched, and `currentIP` always reads inside the list
(it returns `some` element, never an out-of-range access). -/
theorem rotation_cursor_invariant (r : Resolved) (ts : List Int)
    (h : r.ipIdx < r.IPs.length) :
    (applyRotations r ts).ipIdx < (applyRotations r ts).IPs.length ∧
    (applyRotations r ts).IPs = r.IPs ∧
    (currentIP (applyRotations r ts)).isSome = true := by
  obtain ⟨h1, h2⟩ := applyRotations_inv r ts h
  refine ⟨h1, h2, ?_⟩
  unfold currentIP
  rw [if_pos (by omega)]
  rw [List.getElem?_eq_getElem h1]
  rfl

/-- Concrete run of `rotation_cursor_invariant`. -/
theorem rotation_cursor_invariant_witness :
    (applyRotations ⟨"d", [ip4 1, ip6 2], 443, 0, 0⟩ [6 * secondNs]).ipIdx <
      (applyRotations ⟨"d", [ip4 1, ip6 2], 443, 0, 0⟩ [6 * secondNs]).IPs.length ∧
    (applyRotations ⟨"d", [ip4 1, ip6 2], 443, 0, 0⟩ [6 * secondNs]).IPs =
      (⟨"d", [ip4 1, ip6 2], 443, 0, 0⟩ : Resolved).IPs ∧
    (currentIP (applyRotations ⟨"d", [ip4 1, ip6 2], 443, 0, 0⟩ [6 * secondNs])).isSome = true :=
  rotation_cursor_invariant ⟨"d", [ip4 1, ip6 2], 443, 0, 0⟩ [6 * secondNs] (by decide)

lemma NextIP_idx_lt_mod (r : Resolved) (now : Int)
    (h : r.ipIdx < max 1 (r.IPs.length % 256)) :
    (NextIP r now).ipIdx < max 1 ((NextIP r now).IPs.length % 256) := by
  unfold NextIP
  split
  · split
    · exact h
    · split
      · simp only []
        omega
      · simp only []
        omega
  · exact h

lemma applyRotations_inv_mod (r : Resolved) (ts : List Int)
    (h : r.ipIdx < max 1 (r.IPs.length % 256)) :
    (applyRotations r ts).ipIdx < max 1 ((applyRotations r ts).IPs.length % 256) ∧
    (applyRotations r ts).IPs = r.IPs := by
  induction ts generalizing r with
  | nil => exact ⟨h, rfl⟩
  | cons t ts ih =>
    have h1 := NextIP_idx_lt_mod r t h
    have h2 := NextIP_IPs r t
    obtain ⟨a, b⟩ := ih (NextIP r t) h1
    exact ⟨a, by simpa [applyRotations, h2] using b⟩

/-- C10: the source keeps the cursor in a `uint8` and compares it
against `uint8(len(r.IPs))`, i.e. the length truncated mod 256
(`NextIP`).  Hence for a list of length `L ≥ 256`, starting from the
creation cursor 0, every sequence of `NextIP` calls keeps the cursor
below `L mod 256` when `L mod 256 ≥ 2`, pins it to 0 when
`L mod 256 ≤ 1` — so entries at indices `≥ L mod 256` are never
selected — while the cursor still never leaves `[0, L)`. -/
theorem uint8_cursor_truncation (r : Resolved) (ts : List Int)
    (hlen : 256 ≤ r.IPs.length) (h0 : r.ipIdx = 0) :
    (applyRotations r ts).ipIdx < r.IPs.length ∧
    (2 ≤ r.IPs.length % 256 →
      (applyRotations r ts).ipIdx < r.IPs.length % 256) ∧
    (r.IPs.length % 256 ≤ 1 → (applyRotations r ts).ipIdx = 0) := by
  obtain ⟨a, b⟩ := applyRotations_inv_mod r ts (by omega)
  rw [b] at a
  have hm : r.IPs.length % 256 < 256 := Nat.mod_lt _ (by omega)
  exact ⟨by omega, by omega, by omega⟩

/-- Concrete run of `uint8_cursor_truncation` on a 300-entry list
(300 mod 256 = 44). -/
theorem uint8_cursor_truncation_witness :
    (applyRotations ⟨"d", List.replicate 300 (ip4 0), 443, 0, 0⟩ [6 * secondNs]).ipIdx <
      (⟨"d", List.replicate 300 (ip4 0), 443, 0, 0⟩ : Resolved).IPs.length ∧
    (2 ≤ (⟨"d", List.replicate 300 (ip4 0), 443, 0, 0⟩ : Resolved).IPs.length % 256 →
      (applyRotations ⟨"d", List.replicate 300 (ip4 0), 443, 0, 0⟩ [6 * secondNs]).ipIdx <
        (⟨"d", List.replicate 300 (ip4 0), 443, 0, 0⟩ : Resolved).IPs.length % 256) ∧
    ((⟨"d", List.replicate 300 (ip4 0), 443, 0, 0⟩ : Resolved).IPs.length % 256 ≤ 1 →
      (applyRotations ⟨"d", List.replicate 300 (ip4 0), 443, 0, 0⟩ [6 * secondNs]).ipIdx = 0) :=
  uint8_cursor_truncation ⟨"d", List.replicate 300 (ip4 0), 443, 0, 0⟩
    [6 * secondNs]
    (by show 256 ≤ (List.replicate 300 (ip4 0)).length
        rw [List.length_replicate]
        omega)
    (by decide)

lemma NextIP_throttled (r : Resolved) (now : Int) (hlen : 2 ≤ r.IPs.length)
    (ht : now - r.lastSwitched < throttleNs) : NextIP r now = r := by
  unfold NextIP
  rw [if_pos (by omega), if_pos ht]

lemma NextIP_advance (r : Resolved) (t : Int) (hlen : 2 ≤ r.IPs.length)
    (ht : throttleNs ≤ t - r.lastSwitched) :
    (NextIP r t).lastSwitched = t ∧ (NextIP r t).IPs = r.IPs := by
  unfold NextIP
  rw [if_pos (by omega), if_neg (by omega)]
  split <;> exact ⟨rfl, rfl⟩

/-- C4 (amended): a `NextIP` call on an endpoint with fewer than two
IPs is a no-op; on an endpoint with at least two IPs, a call made less
than 5 seconds after the recorded `lastSwitched` timestamp is a no-op,
leaving cursor and timestamp unchanged; and two calls less than
5 seconds apart, the first of which actually advances the cursor
(it is unthrottled), leave the state unchanged after the second call. -/
theorem nextIP_throttle_noop (r : Resolved) (now t1 t2 : Int) :
    (r.IPs.length ≤ 1 → NextIP r now = r) ∧
    (2 ≤ r.IPs.length → now - r.lastSwitched < throttleNs →
      NextIP r now = r) ∧
    (2 ≤ r.IPs.length → throttleNs ≤ t1 - r.lastSwitched →
      t2 - t1 < throttleNs →
      NextIP (NextIP r t1) t2 = NextIP r t1) := by
  refine ⟨?_, ?_, ?_⟩
  · intro h
    unfold NextIP
    rw [if_neg (by omega)]
  · intro hlen ht
    exact NextIP_throttled r now hlen ht
  · intro hlen ht1 ht2
    obtain ⟨hsw, hips⟩ := NextIP_advance r t1 hlen ht1
    exact NextIP_throttled (NextIP r t1) t2 (by rw [hips]; omega)
      (by rw [hsw]; omega)

/-- The claim as frozen is false: with two IPs, a cursor advance
recorded at time 0, a throttled call at t = 3 s and a call at t = 6 s —
two calls less than 5 seconds apart — the cursor changes after the
second call. -/
theorem nextIP_two_calls_cex :
    (6 * secondNs - 3 * secondNs < throttleNs) ∧
    2 ≤ (⟨"d", [ip4 1, ip4 2], 443, 0, 0⟩ : Resolved).IPs.length ∧
    (NextIP ⟨"d", [ip4 1, ip4 2], 443, 0, 0⟩ (3 * secondNs)).ipIdx = 0 ∧
    (NextIP (NextIP ⟨"d", [ip4 1, ip4 2], 443, 0, 0⟩ (3 * secondNs))
      (6 * secondNs)).ipIdx = 1 := by
  refine ⟨by decide, by decide, ?_, ?_⟩ <;> decide

/-- Concrete runs of the three parts of `nextIP_throttle_noop`. -/
theorem nextIP_throttle_noop_witness :
    NextIP ⟨"d", [ip4 1], 443, 0, 0⟩ (6 * secondNs) = ⟨"d", [ip4 1], 443, 0, 0⟩ ∧
    NextIP ⟨"d", [ip4 1, ip4 2], 443, 0, 0⟩ (3 * secondNs) = ⟨"d", [ip4 1, ip4 2], 443, 0, 0⟩ ∧
    NextIP (NextIP ⟨"d", [ip4 1, ip4 2], 443, 0, 0⟩ (6 * secondNs)) (8 * secondNs) =
      NextIP ⟨"d", [ip4 1, ip4 2], 443, 0, 0⟩ (6 * secondNs) :=
  ⟨(nextIP_throttle_noop ⟨"d", [ip4 1], 443, 0, 0⟩ (6 * secondNs) 0 0).1 (by decide),
   (nextIP_throttle_noop ⟨"d", [ip4 1, ip4 2], 443, 0, 0⟩ (3 * secondNs) 0 0).2.1
     (by decide) (by decide),
   (nextIP_throttle_noop ⟨"d", [ip4 1, ip4 2], 443, 0, 0⟩ 0 (6 * secondNs)
     (8 * secondNs)).2.2 (by decide) (by decide) (by decide)⟩

lemma lookupAddr_ok (p : Bool)
    (split : String → Except String (String × String))
    (lookupPort : String → Except String Nat)
    (lookupIPAddr : String → Except String (List IP))
    (addr host portTok : String) (pn : Nat) (l : List IP)
    (hs : split addr = .ok (host, portTok))
    (hp : lookupPort portTok = .ok pn)
    (hl : lookupIPAddr host = .ok l)
    (hne : l ≠ []) :
    lookupAddr p split lookupPort lookupIPAddr addr =
      .ok ⟨host, goReorder p l, pn, 0, 0⟩ := by
  unfold lookupAddr
  rw [hs]
  dsimp only
  rw [hp]
  dsimp only
  rw [hl]
  dsimp only
  rw [if_neg (fun h => hne (List.length_eq_zero.mp h))]

lemma goReorder_rev (l : List IP) (h1 : 1 < l.length)
    (h2 : l.head?.map IP.isV4 = some false)
    (h3 : l.getLast?.map IP.isV4 = some true) :
    goReorder false l = l.reverse := by
  unfold goReorder
  rw [if_pos ⟨rfl, h1, h2, h3⟩]

lemma goReorder_id_head (p : Bool) (l : List IP)
    (h : l.head?.map IP.isV4 ≠ some false) : goReorder p l = l := by
  unfold goReorder
  rw [if_neg (fun hc => h hc.2.2.1)]

lemma goReorder_id_last (p : Bool) (l : List IP)
    (h : l.getLast?.map IP.isV4 ≠ some true) : goReorder p l = l := by
  unfold goReorder
  rw [if_neg (fun hc => h hc.2.2.2)]

lemma goReorder_id_len (p : Bool) (l : List IP)
    (h : ¬ 1 < l.length) : goReorder p l = l := by
  unfold goReorder
  rw [if_neg (fun hc => h hc.2.1)]

/-- A list ordered the way the system resolver is documented to return
mixed results: every IPv6 entry precedes every IPv4 entry. -/
def v6First (l : List IP) : Prop :=
  ∃ a b, l = a ++ b ∧ (∀ x ∈ a, x.isV4 = false) ∧ (∀ x ∈ b, x.isV4 = true)

lemma goReorder_first_v4 (l : List IP) (hsorted : v6First l)
    (hlen : 1 < l.length)
    (hv4 : ∃ x ∈ l, x.isV4 = true) (hv6 : ∃ y ∈ l, y.isV4 = false) :
    (goReorder false l).head?.map IP.isV4 = some true := by
  obtain ⟨a, b, rfl, ha, hb⟩ := hsorted
  obtain ⟨x, hx, hxv⟩ := hv4
  obtain ⟨y, hy, hyv⟩ := hv6
  have hbne : b ≠ [] := by
    rcases List.mem_append.mp hx with h | h
    · rw [ha x h] at hxv
      exact absurd hxv (by simp)
    · exact List.ne_nil_of_mem h
  have hane : a ≠ [] := by
    rcases List.mem_append.mp hy with h | h
    · exact List.ne_nil_of_mem h
    · rw [hb y h] at hyv
      exact absurd hyv (by simp)
  have hhead : (a ++ b).head?.map IP.isV4 = some false := by
    cases a with
    | nil => exact absurd rfl hane
    | cons a0 as =>
      have h0 := ha a0 (List.mem_cons_self a0 as)
      simp [h0]
  have hlast : (a ++ b).getLast?.map IP.isV4 = some true := by
    rw [List.getLast?_append_of_ne_nil a hbne]
    rw [List.getLast?_eq_getLast b hbne]
    have h0 := hb (b.getLast hbne) (List.getLast_mem hbne)
    simp [h0]
  rw [goReorder_rev (a ++ b) hlen hhead hlast]
  rw [List.head?_reverse]
  exact hlast

/-- C1 (amended): for lists delivered by the resolver in its documented
order — IPv6 entries before IPv4 entries (`v6First`) — with
`preferIPv6 = false`, the endpoint stored by `lookupAddr` has an IPv4
first entry whenever the list had more than one entry and mixed the two
families; all-IPv4, all-IPv6, and single-element lists are stored
unchanged. -/
theorem lookup_stored_first_v4 (split : String → Except String (String × String))
    (lookupPort : String → Except String Nat)
    (lookupIPAddr : String → Except String (List IP))
    (addr host portTok : String) (pn : Nat) (l : List IP)
    (hs : split addr = .ok (host, portTok))
    (hp : lookupPort portTok = .ok pn)
    (hl : lookupIPAddr host = .ok l)
    (hne : l ≠ []) (hsorted : v6First l) :
    ∃ rs, lookupAddr false split lookupPort lookupIPAddr addr = .ok rs ∧
      (1 < l.length → (∃ x ∈ l, x.isV4 = true) → (∃ y ∈ l, y.isV4 = false) →
        rs.IPs.head?.map IP.isV4 = some true) ∧
      ((∀ x ∈ l, x.isV4 = true) → rs.IPs = l) ∧
      ((∀ x ∈ l, x.isV4 = false) → rs.IPs = l) ∧
      (l.length = 1 → rs.IPs = l) := by
  refine ⟨⟨host, goReorder false l, pn, 0, 0⟩,
    lookupAddr_ok false split lookupPort lookupIPAddr addr host portTok pn l
      hs hp hl hne, ?_, ?_, ?_, ?_⟩
  · intro hlen hv4 hv6
    exact goReorder_first_v4 l hsorted hlen hv4 hv6
  · intro hall
    apply goReorder_id_head
    cases l with
    | nil => exact absurd rfl hne
    | cons x0 xs =>
      have h0 := hall x0 (List.mem_cons_self x0 xs)
      simp [h0]
  · intro hall
    apply goReorder_id_last
    rw [List.getLast?_eq_getLast l hne]
    have h0 := hall (l.getLast hne) (List.getLast_mem hne)
    simp [h0]
  · intro h1
    apply goReorder_id_len
    omega

/-- C1 as frozen is false on the code: the mixed-family list
`[v6, v4, v6]` has more than one entry and contains an IPv4 address,
yet with `preferIPv6 = false` the stored list is unchanged (the last
entry is not IPv4, so the reversal does not trigger) and its first
entry is an IPv6 address. -/
theorem lookup_stored_first_v4_cex :
    (lookupAddr false (fun _ => .ok ("h", "443")) (fun _ => .ok 443)
        (fun _ => .ok [ip6 0, ip4 1, ip6 2]) "h:443").toOption.map Resolved.IPs =
      some [ip6 0, ip4 1, ip6 2] ∧
    (ip4 1) ∈ [ip6 0, ip4 1, ip6 2] ∧ (ip4 1).isV4 = true ∧
    (∃ y ∈ [ip6 0, ip4 1, ip6 2], y.isV4 = false) ∧
    1 < ([ip6 0, ip4 1, ip6 2] : List IP).length ∧
    ([ip6 0, ip4 1, ip6 2] : List IP).head?.map IP.isV4 = some false := by
  refine ⟨by decide, by decide, by decide, ⟨ip6 0, by decide⟩, by decide, by decide⟩

/-- Concrete run of `lookup_stored_first_v4` on `[v6, v4]`. -/
theorem lookup_stored_first_v4_witness :
    ∃ rs, lookupAddr false (fun _ => .ok ("h", "443")) (fun _ => .ok 443)
        (fun _ => .ok [ip6 0, ip4 1]) "h:443" = .ok rs ∧
      (1 < ([ip6 0, ip4 1] : List IP).length →
        (∃ x ∈ [ip6 0, ip4 1], x.isV4 = true) →
        (∃ y ∈ [ip6 0, ip4 1], y.isV4 = false) →
        rs.IPs.head?.map IP.isV4 = some true) ∧
      ((∀ x ∈ [ip6 0, ip4 1], x.isV4 = true) → rs.IPs = [ip6 0, ip4 1]) ∧
      ((∀ x ∈ [ip6 0, ip4 1], x.isV4 = false) → rs.IPs = [ip6 0, ip4 1]) ∧
      (([ip6 0, ip4 1] : List IP).length = 1 → rs.IPs = [ip6 0, ip4 1]) :=
  lookup_stored_first_v4 (fun _ => .ok ("h", "443")) (fun _ => .ok 443)
    (fun _ => .ok [ip6 0, ip4 1]) "h:443" "h" "443" 443 [ip6 0, ip4 1]
    rfl rfl rfl (by decide) ⟨[ip6 0], [ip4 1], rfl, by decide, by decide⟩

/-- C3 (amended): the reversal applies exactly under the source's
trigger — caller does not prefer IPv6, more than one entry, first entry
not IPv4, last entry IPv4 — and then the stored list is the full
reversal of the resolver's list (per-family order also reversed). -/
theorem lookup_stored_reversal (split : String → Except String (String × String))
    (lookupPort : String → Except String Nat)
    (lookupIPAddr : String → Except String (List IP))
    (addr host portTok : String) (pn : Nat) (l : List IP)
    (hs : split addr = .ok (host, portTok))
    (hp : lookupPort portTok = .ok pn)
    (hl : lookupIPAddr host = .ok l)
    (hlen : 1 < l.length)
    (hhead : l.head?.map IP.isV4 = some false)
    (hlast : l.getLast?.map IP.isV4 = some true) :
    lookupAddr false split lookupPort lookupIPAddr addr =
      .ok ⟨host, l.reverse, pn, 0, 0⟩ := by
  have hne : l ≠ [] := by
    intro h
    rw [h] at hlen
    simp at hlen
  rw [lookupAddr_ok false split lookupPort lookupIPAddr addr host portTok pn l
    hs hp hl hne]
  rw [goReorder_rev l hlen hhead hlast]

/-- C3 as frozen is false on the code: `[v4a, v4b]` has more than one
entry and contains an IPv4 address, and the caller does not prefer
IPv6, yet the stored list is not the reversal — it is unchanged,
because the first entry is already IPv4. -/
theorem lookup_stored_reversal_cex :
    (lookupAddr false (fun _ => .ok ("h", "443")) (fun _ => .ok 443)
        (fun _ => .ok [ip4 1, ip4 2]) "h:443").toOption.map Resolved.IPs =
      some [ip4 1, ip4 2] ∧
    (ip4 1) ∈ [ip4 1, ip4 2] ∧ (ip4 1).isV4 = true ∧
    1 < ([ip4 1, ip4 2] : List IP).length ∧
    some ([ip4 1, ip4 2] : List IP).reverse ≠ some [ip4 1, ip4 2] := by
  refine ⟨by decide, by decide, by decide, by decide, by decide⟩

/-- Concrete run of `lookup_stored_reversal` on `[v6a, v4, v6b, v4b]`
ending IPv4-first with per-family order reversed. -/
theorem lookup_stored_reversal_witness :
    lookupAddr false (fun _ => .ok ("h", "443")) (fun _ => .ok 443)
        (fun _ => .ok [ip6 0, ip6 1, ip4 2, ip4 3]) "h:443" =
      .ok ⟨"h", [ip4 3, ip4 2, ip6 1, ip6 0], 443, 0, 0⟩ :=
  lookup_stored_reversal (fun _ => .ok ("h", "443")) (fun _ => .ok 443)
    (fun _ => .ok [ip6 0, ip6 1, ip4 2, ip4 3]) "h:443" "h" "443" 443
    [ip6 0, ip6 1, ip4 2, ip4 3] rfl rfl rfl (by decide) (by decide) (by decide)

lemma prepLoop_no_signal (lookup : Nat → Except String Resolved)
    (cancel : Nat → Bool) :
    ∀ m k, PrepEv.signal ∉ (prepLoop lookup cancel k m).2 := by
  intro m
  induction m with
  | zero => intro k; simp [prepLoop]
  | succ m ih =>
    intro k
    unfold prepLoop
    cases hlk : lookup k with
    | ok rs => simp
    | error e =>
      by_cases hc : cancel k
      · simp [hc]
      · simp only [hc, if_false]
        intro hmem
        rcases List.mem_cons.mp hmem with h | h
        · exact absurd h (by simp)
        · exact ih (k + 1) h

lemma prepLoop_store_iff (lookup : Nat → Except String Resolved)
    (cancel : Nat → Bool) :
    ∀ m k, ((prepLoop lookup cancel k m).1.isSome = true ↔
      PrepEv.store ∈ (prepLoop lookup cancel k m).2) := by
  intro m
  induction m with
  | zero => intro k; simp [prepLoop]
  | succ m ih =>
    intro k
    unfold prepLoop
    cases hlk : lookup k with
    | ok rs => simp
    | error e =>
      by_cases hc : cancel k
      · simp [hc]
      · rw [if_neg hc]
        rw [List.mem_cons]
        constructor
        · intro h
          exact Or.inr ((ih (k + 1)).mp h)
        · intro h
          rcases h with h | h
          · exact absurd h (by simp)
          · exact (ih (k + 1)).mpr h

/-- C5: every `PrepareDomain` run fires the readiness signal exactly
once, as its final step — after any endpoint store — and, starting from
a dialer with no endpoint, the endpoint is present after the run
exactly when a store happened, so every waiter unblocked by the signal
observes the same final presence or absence of the endpoint. -/
theorem prepare_signal_once (d : ProtectedDialer) (domainName : String)
    (lookup : Nat → Except String Resolved) (cancel : Nat → Bool)
    (prefIPv6 : Bool) :
    ((PrepareDomain d domainName lookup cancel prefIPv6).2.count PrepEv.signal = 1) ∧
    ((PrepareDomain d domainName lookup cancel prefIPv6).2.getLast? =
      some PrepEv.signal) ∧
    (d.vServer = none →
      (((PrepareDomain d domainName lookup cancel prefIPv6).1.vServer).isSome = true ↔
        PrepEv.store ∈ (PrepareDomain d domainName lookup cancel prefIPv6).2)) := by
  unfold PrepareDomain
  simp only []
  refine ⟨?_, ?_, ?_⟩
  · rw [List.count_append]
    rw [List.count_eq_zero.mpr (prepLoop_no_signal lookup cancel 10 0)]
    rfl
  · exact List.getLast?_concat _
  · intro hv
    have hiff := prepLoop_store_iff lookup cancel 10 0
    rw [List.mem_append]
    cases hp : (prepLoop lookup cancel 0 10).1 with
    | some rs =>
      simp only [hp]
      rw [hp] at hiff
      simp only [Option.isSome_some, true_iff] at hiff
      simp [hiff]
    | none =>
      simp only [hp, hv]
      rw [hp] at hiff
      simp only [Option.isSome_none] at hiff
      constructor
      · intro h
        exact absurd h (by simp)
      · intro h
        rcases h with h | h
        · exact absurd (hiff.mpr h) (by simp)
        · exact absurd h (by simp)

/-- Concrete run of `prepare_signal_once`: a fresh dialer whose first
resolution succeeds. -/
theorem prepare_signal_once_witness :
    ((PrepareDomain ⟨"", false, none⟩ "srv:443"
        (fun _ => .ok ⟨"srv", [ip4 1], 443, 0, 0⟩) (fun _ => false) false).2.count
      PrepEv.signal = 1) ∧
    ((PrepareDomain ⟨"", false, none⟩ "srv:443"
        (fun _ => .ok ⟨"srv", [ip4 1], 443, 0, 0⟩) (fun _ => false) false).2.getLast? =
      some PrepEv.signal) ∧
    (((PrepareDomain ⟨"", false, none⟩ "srv:443"
        (fun _ => .ok ⟨"srv", [ip4 1], 443, 0, 0⟩) (fun _ => false) false).1.vServer).isSome = true ↔
      PrepEv.store ∈ (PrepareDomain ⟨"", false, none⟩ "srv:443"
        (fun _ => .ok ⟨"srv", [ip4 1], 443, 0, 0⟩) (fun _ => false) false).2) :=
  ⟨(prepare_signal_once ⟨"", false, none⟩ "srv:443"
      (fun _ => .ok ⟨"srv", [ip4 1], 443, 0, 0⟩) (fun _ => false) false).1,
   (prepare_signal_once ⟨"", false, none⟩ "srv:443"
      (fun _ => .ok ⟨"srv", [ip4 1], 443, 0, 0⟩) (fun _ => false) false).2.1,
   (prepare_signal_once ⟨"", false, none⟩ "srv:443"
      (fun _ => .ok ⟨"srv", [ip4 1], 443, 0, 0⟩) (fun _ => false) false).2.2 rfl⟩

lemma prepLoop_all_fail (lookup : Nat → Except String Resolved)
    (cancel : Nat → Bool) (hl : ∀ n, (lookup n).toOption = none)
    (hc : ∀ n, cancel n = false) :
    ∀ m k, prepLoop lookup cancel k m = (none, List.replicate m PrepEv.attempt) := by
  intro m
  induction m with
  | zero => intro k; rfl
  | succ m ih =>
    intro k
    unfold prepLoop
    cases hlk : lookup k with
    | ok rs =>
      have h2 := hl k
      rw [hlk] at h2
      simp [Except.toOption] at h2
    | error e =>
      rw [if_neg (by rw [hc k]; simp)]
      rw [ih (k + 1)]
      rfl

/-- C6: when every resolution attempt fails and the cancel signal never
fires, `PrepareDomain` makes exactly 10 resolution attempts, stores no
endpoint (the dialer's endpoint field is untouched and no store event
occurs), and fires the readiness signal exactly once. -/
theorem prepare_always_fail (d : ProtectedDialer) (domainName : String)
    (lookup : Nat → Except String Resolved) (cancel : Nat → Bool)
    (prefIPv6 : Bool)
    (hl : ∀ n, (lookup n).toOption = none) (hc : ∀ n, cancel n = false) :
    ((PrepareDomain d domainName lookup cancel prefIPv6).2.count PrepEv.attempt = 10) ∧
    ((PrepareDomain d domainName lookup cancel prefIPv6).1.vServer = d.vServer) ∧
    ((PrepareDomain d domainName lookup cancel prefIPv6).2.count PrepEv.signal = 1) ∧
    (PrepEv.store ∉ (PrepareDomain d domainName lookup cancel prefIPv6).2) := by
  unfold PrepareDomain
  rw [prepLoop_all_fail lookup cancel hl hc 10 0]
  refine ⟨?_, rfl, ?_, ?_⟩
  · rw [List.count_append]
    simp [List.count_replicate]
  · rw [List.count_append]
    simp [List.count_replicate]
  · rw [List.mem_append]
    intro h
    rcases h with h | h
    · have := List.eq_of_mem_replicate h
      exact absurd this (by simp)
    · exact absurd h (by simp)

/-- Concrete run of `prepare_always_fail`. -/
theorem prepare_always_fail_witness :
    ((PrepareDomain ⟨"", false, none⟩ "srv:443" (fun _ => .error "dns down")
        (fun _ => false) false).2.count PrepEv.attempt = 10) ∧
    ((PrepareDomain ⟨"", false, none⟩ "srv:443" (fun _ => .error "dns down")
        (fun _ => false) false).1.vServer =
      (⟨"", false, none⟩ : ProtectedDialer).vServer) ∧
    ((PrepareDomain ⟨"", false, none⟩ "srv:443" (fun _ => .error "dns down")
        (fun _ => false) false).2.count PrepEv.signal = 1) ∧
    (PrepEv.store ∉ (PrepareDomain ⟨"", false, none⟩ "srv:443"
        (fun _ => .error "dns down") (fun _ => false) false).2) :=
  prepare_always_fail ⟨"", false, none⟩ "srv:443" (fun _ => .error "dns down")
    (fun _ => false) false (fun _ => rfl) (fun _ => rfl)

/-- C9: when the injected protect capability rejects the descriptor,
`fdConn` returns the "fail to protect" error and no connection, the
descriptor is closed (by the deferred close), and no connect call is
ever made. -/
theorem fdConn_protect_rejected (protect : Nat → Bool)
    (connectErr : Nat → Option IP → Nat → Option String)
    (fileValid : Bool) (fileConnRes : Except String Conn)
    (ip : Option IP) (port fd : Nat)
    (h : protect fd = false) :
    (fdConn protect connectErr fileValid fileConnRes ip port fd).1 =
      .error "fail to protect" ∧
    FdEv.closeCall fd ∈ (fdConn protect connectErr fileValid fileConnRes ip port fd).2 ∧
    (∀ f2 ip2 p2, FdEv.connectCall f2 ip2 p2 ∉
      (fdConn protect connectErr fileValid fileConnRes ip port fd).2) := by
  unfold fdConn
  rw [if_pos h]
  refine ⟨rfl, by simp, ?_⟩
  intro f2 ip2 p2 hmem
  simp at hmem

/-- Concrete run of `fdConn_protect_rejected`. -/
theorem fdConn_protect_rejected_witness :
    (fdConn (fun _ => false) (fun _ _ _ => none) true (.ok ⟨0⟩)
      (some (ip4 1)) 443 7).1 = .error "fail to protect" ∧
    FdEv.closeCall 7 ∈ (fdConn (fun _ => false) (fun _ _ _ => none) true (.ok ⟨0⟩)
      (some (ip4 1)) 443 7).2 ∧
    (∀ f2 ip2 p2, FdEv.connectCall f2 ip2 p2 ∉
      (fdConn (fun _ => false) (fun _ _ _ => none) true (.ok ⟨0⟩)
        (some (ip4 1)) 443 7).2) :=
  fdConn_protect_rejected (fun _ => false) (fun _ _ _ => none) true (.ok ⟨0⟩)
    (some (ip4 1)) 443 7 rfl

/-- C7: dialing the cached server with an endpoint stored: if the
protected connection attempt fails, the endpoint is rotated by exactly
one `NextIP` call and the same error is propagated with no further
attempt (the trace holds one connection attempt and one rotation); if
it succeeds, the dialer state — including the rotation state — is
untouched. -/
theorem dial_failure_rotates (d : ProtectedDialer) (dest : Destination)
    (afterWait : Option Resolved) (socket : Network → Except String Nat)
    (protect : Nat → Bool)
    (connectErr : Nat → Option IP → Nat → Option String)
    (fileValid : Bool) (fileConnRes : Except String Conn)
    (lookup : String → Except String Resolved) (now : Int)
    (r : Resolved) (fd : Nat)
    (hv : d.vServer = some r)
    (ha : dest.addr = d.currentServer)
    (hfd : getFd socket dest.network = .ok fd) :
    (∀ e tr, fdConn protect connectErr fileValid fileConnRes
        (currentIP r) r.Port fd = (.error e, tr) →
      goDial d dest afterWait socket protect connectErr fileValid fileConnRes
          lookup now =
        (.error e, { d with vServer := some (NextIP r now) },
          [DialEv.fdConnAttempt, DialEv.nextIPCall])) ∧
    (∀ c tr, fdConn protect connectErr fileValid fileConnRes
        (currentIP r) r.Port fd = (.ok c, tr) →
      goDial d dest afterWait socket protect connectErr fileValid fileConnRes
          lookup now = (.ok c, d, [DialEv.fdConnAttempt])) := by
  obtain ⟨cs, pf, vs⟩ := d
  dsimp only at hv ha
  subst hv
  constructor
  · intro e tr hconn
    unfold goDial
    rw [if_pos ha]
    dsimp only
    rw [hfd]
    dsimp only
    rw [hconn]
    rfl
  · intro c tr hconn
    unfold goDial
    rw [if_pos ha]
    dsimp only
    rw [hfd]
    dsimp only
    rw [hconn]
    rfl

/-- Concrete runs of both parts of `dial_failure_rotates`. -/
theorem dial_failure_rotates_witness :
    goDial ⟨"srv:443", false, some ⟨"srv", [ip4 1, ip6 2], 443, 0, 0⟩⟩
        ⟨Network.tcp, "srv:443"⟩ none (fun _ => .ok 7) (fun _ => true)
        (fun _ _ _ => some "connect boom") true (.error "unused")
        (fun _ => .error "unused") (7 * secondNs) =
      (.error "connect boom",
        ⟨"srv:443", false,
          some (NextIP ⟨"srv", [ip4 1, ip6 2], 443, 0, 0⟩ (7 * secondNs))⟩,
        [DialEv.fdConnAttempt, DialEv.nextIPCall]) ∧
    goDial ⟨"srv:443", false, some ⟨"srv", [ip4 1, ip6 2], 443, 0, 0⟩⟩
        ⟨Network.tcp, "srv:443"⟩ none (fun _ => .ok 7) (fun _ => true)
        (fun _ _ _ => none) true (.ok ⟨9⟩)
        (fun _ => .error "unused") (7 * secondNs) =
      (.ok ⟨9⟩, ⟨"srv:443", false, some ⟨"srv", [ip4 1, ip6 2], 443, 0, 0⟩⟩,
        [DialEv.fdConnAttempt]) :=
  ⟨(dial_failure_rotates ⟨"srv:443", false, some ⟨"srv", [ip4 1, ip6 2], 443, 0, 0⟩⟩
      ⟨Network.tcp, "srv:443"⟩ none (fun _ => .ok 7) (fun _ => true)
      (fun _ _ _ => some "connect boom") true (.error "unused")
      (fun _ => .error "unused") (7 * secondNs)
      ⟨"srv", [ip4 1, ip6 2], 443, 0, 0⟩ 7 rfl rfl rfl).1 "connect boom" _ rfl,
   (dial_failure_rotates ⟨"srv:443", false, some ⟨"srv", [ip4 1, ip6 2], 443, 0, 0⟩⟩
      ⟨Network.tcp, "srv:443"⟩ none (fun _ => .ok 7) (fun _ => true)
      (fun _ _ _ => none) true (.ok ⟨9⟩)
      (fun _ => .error "unused") (7 * secondNs)
      ⟨"srv", [ip4 1, ip6 2], 443, 0, 0⟩ 7 rfl rfl rfl).2 ⟨9⟩ _ rfl⟩

/-- C8: dialing the cached server with no endpoint stored blocks on the
readiness signal (the wait event is in the trace whatever happens
next); if the endpoint is still absent once the signal fires, `Dial`
returns the preparation-failure error, no connection, and an unchanged
dialer. -/
theorem dial_unprepared (d : ProtectedDialer) (dest : Destination)
    (afterWait : Option Resolved) (socket : Network → Except String Nat)
    (protect : Nat → Bool)
    (connectErr : Nat → Option IP → Nat → Option String)
    (fileValid : Bool) (fileConnRes : Except String Conn)
    (lookup : String → Except String Resolved) (now : Int)
    (hv : d.vServer = none)
    (ha : dest.addr = d.currentServer) :
    DialEv.waitResolve ∈ (goDial d dest afterWait socket protect connectErr
      fileValid fileConnRes lookup now).2.2 ∧
    (afterWait = none →
      goDial d dest afterWait socket protect connectErr fileValid fileConnRes
          lookup now =
        (.error ("fail to prepare domain " ++ d.currentServer), d,
          [DialEv.waitResolve])) := by
  constructor
  · unfold goDial
    rw [if_pos ha, hv]
    dsimp only
    cases afterWait with
    | none => simp
    | some r =>
      cases hg : getFd socket dest.network with
      | error e => simp
      | ok fd =>
        dsimp only
        cases hc : fdConn protect connectErr fileValid fileConnRes
            (currentIP r) r.Port fd with
        | mk res tr =>
          cases res with
          | error e => simp
          | ok c => simp
  · intro hw
    subst hw
    unfold goDial
    rw [if_pos ha, hv]

/-- Concrete run of `dial_unprepared` with the endpoint still absent
after the signal. -/
theorem dial_unprepared_witness :
    goDial ⟨"srv:443", false, none⟩ ⟨Network.tcp, "srv:443"⟩ none
        (fun _ => .ok 7) (fun _ => true) (fun _ _ _ => none) true (.ok ⟨0⟩)
        (fun _ => .error "unused") 0 =
      (.error ("fail to prepare domain " ++
          (⟨"srv:443", false, none⟩ : ProtectedDialer).currentServer),
        ⟨"srv:443", false, none⟩, [DialEv.waitResolve]) :=
  (dial_unprepared ⟨"srv:443", false, none⟩ ⟨Network.tcp, "srv:443"⟩ none
    (fun _ => .ok 7) (fun _ => true) (fun _ _ _ => none) true (.ok ⟨0⟩)
    (fun _ => .error "unused") 0 rfl rfl).2 rfl
